import Mathlib

/-!
Shallow embedding of the credit-score prediction service in `src/app.py`.

The repository is a single AWS Lambda module.  Its core pieces are embedded
here as executable Lean definitions:

* `normalise_value`   — `_normalise_value` (string → int/float coercion);
* `prepare_payload`   — payload → ordered feature vector, in `FEATURE_ORDER`;
* `write_real_data_to_s3` — the per-day CSV log read-modify-write, with the
  day's S3 object passed in explicitly (`none` models the `NoSuchKey` fetch
  outcome) and the nondeterministic ambient data (timestamp, model version)
  passed as arguments;
* `handler`           — the Lambda entry point, parameterised by an
  environment `Env` holding the external collaborators (the opaque model's
  `predict`, the metadata version, `json.loads` at the gateway boundary, the
  CloudWatch outcome, and the day's stored S3 object).  The handler returns
  its outcome together with a trace of the side-effecting calls it made, in
  order.

Python floats are modelled as exact rationals: the module only parses decimal
literals, passes numbers through, and stringifies them; no float arithmetic
is performed on any modelled path.
-/

namespace CreditScoreApp

/-- A Python primitive value as it appears in request payloads: a string, an
integer, or a float (modelled as an exact rational). -/
inductive PyVal where
  | str (s : String)
  | int (n : Int)
  | float (q : ℚ)
deriving DecidableEq, Repr

/-- A Python exception as raised by the modelled code paths: `ValueError`
(missing feature, failed parse, empty S3 file), `IndexError` (indexing the
model's output), or an error surfaced by an external collaborator
(CloudWatch, `json.loads`). -/
inductive PyErr where
  | valueError (msg : String)
  | indexError (msg : String)
  | externalError (msg : String)
deriving DecidableEq, Repr

/-- The message text of an exception, as Python's `str(exc)` yields it. -/
def pyErrStr : PyErr → String
  | .valueError m => m
  | .indexError m => m
  | .externalError m => m

/-- A Python `dict` with string keys, as an insertion-ordered association
list (Python dicts preserve insertion order and have unique keys). -/
abbrev Dict := List (String × PyVal)

/-- Key lookup, `data[k]` / `k in data`: the first binding of `k` wins. -/
def dictLookup (d : Dict) (k : String) : Option PyVal :=
  match d with
  | [] => none
  | (k2, v) :: rest => if k2 = k then some v else dictLookup rest k

/-- The update `{**d, k: v}` performs on each new binding: if `k` is already
bound its value is replaced in place, otherwise the binding is appended. -/
def dictInsert (d : Dict) (k : String) (v : PyVal) : Dict :=
  match d with
  | [] => [(k, v)]
  | (k2, w) :: rest =>
      if k2 = k then (k2, v) :: rest else (k2, w) :: dictInsert rest k v

/-- Value of a digit list read in base 10 (`'0'` has code 48). -/
def digitsVal (cs : List Char) : Nat :=
  cs.foldl (fun a c => a * 10 + (c.toNat - 48)) 0

/-- A nonempty all-digit list parsed in base 10, `none` otherwise. -/
def digitsToNat (cs : List Char) : Option Nat :=
  if cs.isEmpty then none
  else if cs.all Char.isDigit then some (digitsVal cs) else none

/-- Surrounding whitespace stripped from a character list (Python's `int`
and `float` strip it before parsing). -/
def trimChars (cs : List Char) : List Char :=
  ((cs.dropWhile Char.isWhitespace).reverse.dropWhile Char.isWhitespace).reverse

/-- Python `int(s)` on the common literal shapes: surrounding whitespace,
an optional sign, then decimal digits.  (Underscore group separators and
non-decimal bases are not modelled; no modelled flow produces them.) -/
def pyInt (s : String) : Option Int :=
  match trimChars s.data with
  | '-' :: rest => (digitsToNat rest).map (fun n => -(n : Int))
  | '+' :: rest => (digitsToNat rest).map (fun n => (n : Int))
  | cs => (digitsToNat cs).map (fun n => (n : Int))

/-- An unsigned decimal literal `digits [. digits]` (at least one digit in
total) read as the exact rational `intpart.fracpart` denotes. -/
def decimalToRat (cs : List Char) : Option ℚ :=
  let ip := cs.takeWhile (fun c => c ≠ '.')
  match cs.dropWhile (fun c => c ≠ '.') with
  | [] =>
      if !ip.isEmpty && ip.all Char.isDigit then some (mkRat (digitsVal ip) 1)
      else none
  | _ :: fp =>
      if (!ip.isEmpty || !fp.isEmpty) && ip.all Char.isDigit
          && fp.all Char.isDigit then
        some (mkRat (digitsVal ip * 10 ^ fp.length + digitsVal fp)
                (10 ^ fp.length))
      else none

/-- Python `float(s)` on the common literal shapes: surrounding whitespace,
an optional sign, then a decimal literal with an optional fraction part.
(Exponents, `inf` and `nan` are not modelled; no modelled flow produces
them.)  The result is the exact rational the literal denotes. -/
def pyFloat (s : String) : Option ℚ :=
  match trimChars s.data with
  | '-' :: rest => (decimalToRat rest).map (fun q => -q)
  | '+' :: rest => decimalToRat rest
  | cs => decimalToRat cs

/-- `_normalise_value` of `src/app.py`: a string is parsed with `float` when
it contains the character `.`, otherwise with `int` (either parse failure
raises Python's `ValueError`); every non-string value passes through
unchanged. -/
def normalise_value (value : PyVal) : Except PyErr PyVal :=
  match value with
  | .str s =>
      if s.data.any (fun c => c == '.') then
        match pyFloat s with
        | some q => .ok (.float q)
        | none =>
            .error (.valueError
              ("could not convert string to float: '" ++ s ++ "'"))
      else
        match pyInt s with
        | some n => .ok (.int n)
        | none =>
            .error (.valueError
              ("invalid literal for int() with base 10: '" ++ s ++ "'"))
  | v => .ok v

/-- `FEATURE_ORDER` of `src/app.py`: the 18 feature keys, in the order the
model was trained on. -/
def FEATURE_ORDER : List String :=
  ["Age",
   "Annual_Income",
   "Num_Bank_Accounts",
   "Num_Credit_Card",
   "Num_of_Delayed_Payment",
   "Credit_Utilization_Ratio",
   "Payment_of_Min_Amount",
   "Total_EMI_per_month",
   "Credit_History_Age_Formated",
   "Auto_Loan",
   "Credit-Builder_Loan",
   "Personal_Loan",
   "Home_Equity_Loan",
   "Mortgage_Loan",
   "Student_Loan",
   "Debt_Consolidation_Loan",
   "Payday_Loan",
   "Missed_Payment_Day"]

/-- One iteration of the `prepare_payload` loop body at key `key`: the
missing-key check (`key not in data` raises
`ValueError("Feature '<key>' missing from payload.")`) followed by
`_normalise_value(data[key])`. -/
def coerceAt (data : Dict) (key : String) : Except PyErr PyVal :=
  match dictLookup data key with
  | none => .error (.valueError ("Feature '" ++ key ++ "' missing from payload."))
  | some v => normalise_value v

/-- The `prepare_payload` loop over an arbitrary key list, accumulating the
coerced values in order; the first raised exception aborts the loop. -/
def prepare_payload_aux (data : Dict) : List String → Except PyErr (List PyVal)
  | [] => .ok []
  | key :: keys =>
      match coerceAt data key with
      | .error e => .error e
      | .ok w =>
          match prepare_payload_aux data keys with
          | .error e => .error e
          | .ok rest => .ok (w :: rest)

/-- `prepare_payload` of `src/app.py`: the input dict converted to the list
of coerced values in `FEATURE_ORDER`. -/
def prepare_payload (data : Dict) : Except PyErr (List PyVal) :=
  prepare_payload_aux data FEATURE_ORDER

/-- Whether an `Except` result is a success. -/
def exceptOk {ε α : Type _} : Except ε α → Bool
  | .ok _ => true
  | .error _ => false

instance {ε α : Type _} [DecidableEq ε] [DecidableEq α] :
    DecidableEq (Except ε α)
  | .error a, .error b =>
      if h : a = b then .isTrue (by rw [h])
      else .isFalse (fun c => h (Except.error.inj c))
  | .error _, .ok _ => .isFalse (fun c => Except.noConfusion c)
  | .ok _, .error _ => .isFalse (fun c => Except.noConfusion c)
  | .ok a, .ok b =>
      if h : a = b then .isTrue (by rw [h])
      else .isFalse (fun c => h (Except.ok.inj c))

/-- Multiplicity of the factor `p` in `n`, computed with a structural fuel
argument (`fuel = n` suffices, since `n / p < n` whenever `p` divides). -/
def countFactorAux (p : Nat) : Nat → Nat → Nat
  | 0, _ => 0
  | fuel + 1, n =>
      if 2 ≤ p ∧ 0 < n ∧ n % p = 0 then countFactorAux p fuel (n / p) + 1
      else 0

/-- Multiplicity of the factor `p` in `n`. -/
def countFactor (p n : Nat) : Nat := countFactorAux p n n

/-- A digit string left-padded with zeros to length `k`. -/
def padLeftZeros (s : String) (k : Nat) : String :=
  String.mk (List.replicate (k - s.length) '0') ++ s

/-- Python `str` on a float, for the exact rationals our model carries.
A rational with a power-of-ten-compatible denominator (the only kind the
modelled flows produce: decimal-literal parses and integer-valued
predictions) is rendered as its exact terminating decimal expansion, with
`.0` appended to integer values, exactly as Python prints such floats.
Other rationals fall back to a fraction rendering (unreachable from the
modelled flows). -/
def ratDecimalString (q : ℚ) : String :=
  let d := q.den
  let a := countFactor 2 d
  let b := countFactor 5 d
  let k := max a b
  if d = 2 ^ a * 5 ^ b then
    let n := q.num.natAbs * 10 ^ k / d
    let sign := if q.num < 0 then "-" else ""
    if k = 0 then sign ++ toString (n / 10 ^ k) ++ ".0"
    else sign ++ toString (n / 10 ^ k) ++ "."
           ++ padLeftZeros (toString (n % 10 ^ k)) k
  else toString q.num ++ "/" ++ toString d

/-- Python `str` on a primitive value: a string is itself, an int prints in
decimal, a float prints per `ratDecimalString`. -/
def pyStr : PyVal → String
  | .str s => s
  | .int n => toString n
  | .float q => ratDecimalString q

/-- A character list cut at each newline into the list of segments between
newlines (always at least one segment). -/
def splitNewlineChars : List Char → List (List Char)
  | [] => [[]]
  | c :: rest =>
      match splitNewlineChars rest with
      | [] => [[]]
      | l :: ls => if c = '\n' then [] :: l :: ls else (c :: l) :: ls

/-- Python `str.splitlines()` for newline-delimited content (the only line
separator the module ever writes): the empty string yields no lines, and a
trailing newline does not open a final empty line. -/
def splitlines (s : String) : List String :=
  if s.data.isEmpty then []
  else
    let parts := (splitNewlineChars s.data).map String.mk
    if parts.getLast? = some "" then parts.dropLast else parts

/-- The enriched audit record built by `write_real_data_to_s3`:
`{**data, "credit_score_prediction": prediction, "timestamp": timestamp,
"model_version": MODEL_INFO["version"]}`. -/
def enrich (data : Dict) (prediction : PyVal) (timestamp : String)
    (model_version : PyVal) : Dict :=
  dictInsert
    (dictInsert
      (dictInsert data "credit_score_prediction" prediction)
      "timestamp" (.str timestamp))
    "model_version" model_version

/-- The comma-joined header a record yields: `",".join(enriched.keys())`. -/
def headerOf (enriched : Dict) : String :=
  String.intercalate "," (enriched.map Prod.fst)

/-- The comma-joined data row a record yields:
`",".join(map(str, enriched.values()))`. -/
def rowOf (enriched : Dict) : String :=
  String.intercalate "," (enriched.map (fun kv => pyStr kv.2))

/-- `write_real_data_to_s3` of `src/app.py`, with the ambient state made
explicit: `stored` is the current day's S3 object (`none` models the
`NoSuchKey` fetch outcome), `timestamp` the formatted `datetime.now()`, and
`model_version` the loaded `MODEL_INFO["version"]`.  The returned string is
the content the final `put_object` writes; fetching an existing empty
object raises `ValueError("Empty file retrieved from S3")`, which the
`except NoSuchKey` clause does not catch. -/
def write_real_data_to_s3 (stored : Option String) (data : Dict)
    (prediction : PyVal) (timestamp : String) (model_version : PyVal) :
    Except PyErr String :=
  let enriched := enrich data prediction timestamp model_version
  let fetched : Except PyErr (String × List String) :=
    match stored with
    | some content =>
        match splitlines content with
        | [] => .error (.valueError "Empty file retrieved from S3")
        | header :: rows => .ok (header, rows)
    | none => .ok (headerOf enriched, [])
  match fetched with
  | .error e => .error e
  | .ok (header, rows) =>
      .ok (String.intercalate "\n" (header :: (rows ++ [rowOf enriched])))

/-- Python `float(v)` as applied to the model's scalar output. -/
def pyFloatCoerce (v : PyVal) : Except PyErr ℚ :=
  match v with
  | .int n => .ok (mkRat n 1)
  | .float q => .ok q
  | .str s =>
      match pyFloat s with
      | some q => .ok q
      | none =>
          .error (.valueError
            ("could not convert string to float: '" ++ s ++ "'"))

/-- The body of a gateway request after `json.loads`, abstracted to what the
handler reads from it: `body.get("data", {})`.  (`json.loads` results that
are not objects with a dict-valued `data` field lie outside the flows the
claims exercise.) -/
structure ParsedBody where
  data? : Option Dict

/-- The external collaborators and ambient state the handler touches, fixed
for one invocation: the gateway JSON parser, the opaque model's `predict` on
one feature row (returning its output row), the loaded metadata version, the
outcome of the CloudWatch calls in `publish_metrics`, the current day's S3
object, and the formatted current time. -/
structure Env where
  json_loads : String → Except PyErr ParsedBody
  predict : List PyVal → List PyVal
  version : String
  metrics_result : Except PyErr Unit
  stored : Option String
  timestamp : String

/-- A Lambda invocation event: gateway-style (a `body` key holding a JSON
string) or direct (a `data` key holding the payload dict, or absent). -/
inductive Event where
  | gateway (body : String)
  | direct (data? : Option Dict)

/-- One side-effecting call the handler makes, with the arguments passed:
`publish_metrics(payload, prediction)` or
`write_real_data_to_s3(payload, prediction)`. -/
inductive Effect where
  | metrics (data : Dict) (prediction : ℚ)
  | s3_write (data : Dict) (prediction : ℚ)
deriving DecidableEq, Repr

/-- The structured content of a handler response body (the argument of
`json.dumps`): a success carries the prediction and the metadata version, a
failure carries the error message. -/
inductive RespBody where
  | success (prediction : ℚ) (version : String)
  | failure (error : String)
deriving DecidableEq, Repr

/-- A handler return value: status code, the `Content-Type` header, and the
structured body. -/
structure Response where
  statusCode : Nat
  contentType : String
  body : RespBody
deriving DecidableEq, Repr

/-- How one invocation ends: a returned response, or an exception that
escapes the handler to the Lambda runtime. -/
inductive Outcome where
  | response (r : Response)
  | uncaught (e : PyErr)
deriving DecidableEq, Repr

/-- Whether an invocation produced a returned response at all. -/
def Outcome.isResponse : Outcome → Bool
  | .response _ => true
  | .uncaught _ => false

/-- The payload-extraction prologue of `handler` (before its `try` block):
a gateway event has its `body` passed through `json.loads` — whose failure
is not caught — and then `body.get("data", {})`; a direct event yields
`event.get("data", {})`. -/
def extract_payload (env : Env) (event : Event) : Except PyErr Dict :=
  match event with
  | .gateway body =>
      match env.json_loads body with
      | .error e => .error e
      | .ok b => .ok (b.data?.getD [])
  | .direct data? => .ok (data?.getD [])

/-- `handler` of `src/app.py`.  Extraction runs first, outside any handler;
the `try` block covers `prepare_payload` and
`float(MODEL.predict([features])[0])` and converts any exception into a 400
response; on success `publish_metrics` and then `write_real_data_to_s3` run
outside the `try`, so their exceptions escape.  The second component is the
trace of side-effecting calls made, in order. -/
def handler (env : Env) (event : Event) : Outcome × List Effect :=
  match extract_payload env event with
  | .error e => (.uncaught e, [])
  | .ok payload =>
      let predE : Except PyErr ℚ :=
        match prepare_payload payload with
        | .error e => .error e
        | .ok features =>
            match (env.predict features).head? with
            | none => .error (.indexError "index 0 is out of bounds")
            | some v => pyFloatCoerce v
      match predE with
      | .error e =>
          (.response { statusCode := 400, contentType := "application/json",
                       body := .failure (pyErrStr e) }, [])
      | .ok prediction =>
          match env.metrics_result with
          | .error e => (.uncaught e, [.metrics payload prediction])
          | .ok _ =>
              match write_real_data_to_s3 env.stored payload
                      (.float prediction) env.timestamp (.str env.version) with
              | .error e =>
                  (.uncaught e,
                   [.metrics payload prediction, .s3_write payload prediction])
              | .ok _ =>
                  (.response { statusCode := 200,
                               contentType := "application/json",
                               body := .success prediction env.version },
                   [.metrics payload prediction, .s3_write payload prediction])

/-- Two appends for the same day's log that both fetched the same prior
object `stored` before either wrote (the racing interleaving the module's
fetch-then-overwrite cycle allows): each call computes its content from
`stored` alone.  The first component is the earlier write's content, the
second the later write's; since the later `put_object` overwrites the
earlier one, the second component is the final stored content. -/
def lost_update (stored : Option String)
    (d1 : Dict) (p1 : PyVal) (t1 : String) (v1 : PyVal)
    (d2 : Dict) (p2 : PyVal) (t2 : String) (v2 : PyVal) :
    Except PyErr String × Except PyErr String :=
  (write_real_data_to_s3 stored d1 p1 t1 v1,
   write_real_data_to_s3 stored d2 p2 t2 v2)

/-- A concrete 18-key record, with the keys in reverse `FEATURE_ORDER`
order, for exercising the ordering claim. -/
def reversedRecord : Dict :=
  (FEATURE_ORDER.map (fun k => (k, PyVal.int 2))).reverse

/-- A concrete 18-key record in `FEATURE_ORDER` order, every value the
integer 1. -/
def smallRecord : Dict := FEATURE_ORDER.map (fun k => (k, PyVal.int 1))

/-- A concrete environment on which every stage succeeds: the model always
predicts 300, the day has no log yet, metrics succeed. -/
def env6 : Env :=
  { json_loads := fun _ => .ok ⟨none⟩
    predict := fun _ => [.float (mkRat 300 1)]
    version := "1.0.0"
    metrics_result := .ok ()
    stored := some ""
    timestamp := "01-01-2026 00:00" }

/-- `env6` with no stored log for the day (a `NoSuchKey` fetch). -/
def envOk : Env := { env6 with stored := none }

/-- `env6` with the CloudWatch calls failing. -/
def envMetricsDown : Env :=
  { env6 with metrics_result := .error (.externalError "cloudwatch down") }

/-- `env6` with a gateway JSON parser that rejects every body. -/
def envBadJson : Env :=
  { env6 with
    json_loads :=
      fun _ => .error (.valueError "Expecting value: line 1 column 1 (char 0)") }

/-! ## General lemmas about the feature-normalisation loop -/

theorem prepare_aux_ok_spec (data : Dict) (keys : List String) :
    ∀ out : List PyVal, prepare_payload_aux data keys = .ok out →
      out.length = keys.length ∧
      ∀ (i : ℕ) (hi : i < keys.length) (ho : i < out.length),
        coerceAt data (keys.get ⟨i, hi⟩) = .ok (out.get ⟨i, ho⟩) := by
  induction keys with
  | nil =>
      intro out h
      cases hout : out with
      | nil => exact ⟨rfl, fun i hi _ => absurd hi (Nat.not_lt_zero i)⟩
      | cons w rest =>
          rw [hout] at h
          exact absurd (Except.ok.inj h) (by simp)
  | cons key keys ih =>
      intro out h
      simp only [prepare_payload_aux] at h
      split at h
      · exact absurd h (by simp)
      · next w hc =>
          split at h
          · exact absurd h (by simp)
          · next rest hr =>
              obtain ⟨hlen, hget⟩ := ih rest hr
              injection h with h2
              subst h2
              refine ⟨by simp [hlen], ?_⟩
              intro i hi ho
              cases i with
              | zero => exact hc
              | succ j =>
                  exact hget j (Nat.lt_of_succ_lt_succ hi)
                    (Nat.lt_of_succ_lt_succ ho)

theorem prepare_aux_total (data : Dict) (keys : List String)
    (h : ∀ k ∈ keys, exceptOk (coerceAt data k) = true) :
    ∃ out, prepare_payload_aux data keys = .ok out := by
  induction keys with
  | nil => exact ⟨[], rfl⟩
  | cons key keys ih =>
      have hk := h key (List.mem_cons_self key keys)
      obtain ⟨out, hout⟩ := ih (fun k hk2 => h k (List.mem_cons_of_mem _ hk2))
      cases hc : coerceAt data key with
      | error e => rw [hc] at hk; exact absurd hk (by simp [exceptOk])
      | ok w =>
          refine ⟨w :: out, ?_⟩
          simp only [prepare_payload_aux]
          rw [hc, hout]

theorem prepare_aux_congr (d1 d2 : Dict) (keys : List String)
    (h : ∀ k ∈ keys, dictLookup d1 k = dictLookup d2 k) :
    prepare_payload_aux d1 keys = prepare_payload_aux d2 keys := by
  induction keys with
  | nil => rfl
  | cons key keys ih =>
      have hk : coerceAt d1 key = coerceAt d2 key := by
        unfold coerceAt
        rw [h key (List.mem_cons_self key keys)]
      have hrec := ih (fun k hk2 => h k (List.mem_cons_of_mem _ hk2))
      simp only [prepare_payload_aux]
      rw [hk, hrec]

theorem prepare_aux_missing (data : Dict) (keys : List String) (k : String)
    (hfind : keys.find? (fun k2 => (dictLookup data k2).isNone) = some k)
    (hpre : ∀ k2 ∈ keys.takeWhile (fun k3 => (dictLookup data k3).isSome),
      exceptOk (coerceAt data k2) = true) :
    prepare_payload_aux data keys =
      .error (.valueError ("Feature '" ++ k ++ "' missing from payload.")) := by
  induction keys with
  | nil => exact absurd hfind (by simp)
  | cons key keys ih =>
      cases hl : dictLookup data key with
      | none =>
          have hkey : k = key := by
            rw [List.find?_cons_of_pos _ (by simp [hl])] at hfind
            exact (Option.some.inj hfind).symm
          subst hkey
          simp only [prepare_payload_aux, coerceAt]
          rw [hl]
      | some v =>
          have hfind2 :
              keys.find? (fun k2 => (dictLookup data k2).isNone) = some k := by
            rwa [List.find?_cons_of_neg _ (by simp [hl])] at hfind
          have htw : keys.takeWhile (fun k3 => (dictLookup data k3).isSome) =
              List.takeWhile (fun k3 => (dictLookup data k3).isSome) keys := rfl
          have hcons : (key :: keys).takeWhile
              (fun k3 => (dictLookup data k3).isSome) =
              key :: keys.takeWhile (fun k3 => (dictLookup data k3).isSome) := by
            rw [List.takeWhile_cons_of_pos]
            simp [hl]
          have hkey_ok : exceptOk (coerceAt data key) = true := by
            refine hpre key ?_
            rw [hcons]
            exact List.mem_cons_self _ _
          have hpre2 : ∀ k2 ∈ keys.takeWhile
              (fun k3 => (dictLookup data k3).isSome),
              exceptOk (coerceAt data k2) = true := by
            intro k2 hm
            refine hpre k2 ?_
            rw [hcons]
            exact List.mem_cons_of_mem _ hm
          cases hc : coerceAt data key with
          | error e => rw [hc] at hkey_ok; exact absurd hkey_ok (by simp [exceptOk])
          | ok w =>
              simp only [prepare_payload_aux]
              rw [hc, ih hfind2 hpre2]

/-! ## The claims -/

/-- C1: for every input record containing all 18 `FEATURE_ORDER` keys with
coercible values, `prepare_payload` returns a vector whose length equals the
length of `FEATURE_ORDER` and whose i-th entry is the coercion of the
record's value for the i-th key; and the result is the same for any record
with the same key-value mapping, regardless of the record's own key order. -/
theorem prepare_payload_ordered (data : Dict)
    (h : ∀ k ∈ FEATURE_ORDER, exceptOk (coerceAt data k) = true) :
    ∃ out, prepare_payload data = .ok out ∧
      out.length = FEATURE_ORDER.length ∧
      (∀ (i : ℕ) (hi : i < FEATURE_ORDER.length) (ho : i < out.length),
        coerceAt data (FEATURE_ORDER.get ⟨i, hi⟩) = .ok (out.get ⟨i, ho⟩)) ∧
      (∀ data2 : Dict, (∀ k : String, dictLookup data2 k = dictLookup data k) →
        prepare_payload data2 = .ok out) := by
  obtain ⟨out, hout⟩ := prepare_aux_total data FEATURE_ORDER h
  obtain ⟨hlen, hget⟩ := prepare_aux_ok_spec data FEATURE_ORDER out hout
  refine ⟨out, hout, hlen, hget, ?_⟩
  intro d2 h2
  rw [prepare_payload, prepare_aux_congr d2 data FEATURE_ORDER (fun k _ => h2 k)]
  exact hout

theorem prepare_payload_ordered_witness :
    ∃ out, prepare_payload reversedRecord = .ok out ∧
      out.length = FEATURE_ORDER.length ∧
      (∀ (i : ℕ) (hi : i < FEATURE_ORDER.length) (ho : i < out.length),
        coerceAt reversedRecord (FEATURE_ORDER.get ⟨i, hi⟩) =
          .ok (out.get ⟨i, ho⟩)) ∧
      (∀ data2 : Dict,
        (∀ k : String, dictLookup data2 k = dictLookup reversedRecord k) →
        prepare_payload data2 = .ok out) :=
  prepare_payload_ordered reversedRecord (by decide)

/-- C2: `_normalise_value` parses a string containing `.` with `float` and a
string without `.` with `int`, and returns every non-string value unchanged;
in particular `"30"` yields the integer `30` and `"43391.96"` yields the
float `43391.96`. -/
theorem normalise_value_spec :
    (∀ (s : String) (q : ℚ), '.' ∈ s.data → pyFloat s = some q →
      normalise_value (.str s) = .ok (.float q)) ∧
    (∀ (s : String) (n : ℤ), '.' ∉ s.data → pyInt s = some n →
      normalise_value (.str s) = .ok (.int n)) ∧
    (∀ n : ℤ, normalise_value (.int n) = .ok (.int n)) ∧
    (∀ q : ℚ, normalise_value (.float q) = .ok (.float q)) ∧
    normalise_value (.str "30") = .ok (.int 30) ∧
    normalise_value (.str "43391.96") = .ok (.float 43391.96) := by
  refine ⟨?_, ?_, fun n => rfl, fun q => rfl, by decide, ?_⟩
  · intro s q hmem hparse
    have hany : s.data.any (fun c => c == '.') = true := by
      rw [List.any_eq_true]
      exact ⟨'.', hmem, by simp⟩
    simp [normalise_value, hany, hparse]
  · intro s n hmem hparse
    have hany : s.data.any (fun c => c == '.') = false := by
      rw [Bool.eq_false_iff]
      intro hc
      rw [List.any_eq_true] at hc
      obtain ⟨c, hc1, hc2⟩ := hc
      rw [beq_iff_eq] at hc2
      exact hmem (hc2 ▸ hc1)
    simp [normalise_value, hany, hparse]
  · have h : (43391.96 : ℚ) = mkRat 4339196 100 := by
      norm_num [mkRat, Rat.normalize]
    rw [h]
    decide

theorem normalise_value_spec_witness :
    normalise_value (.str "1.5") = .ok (.float (mkRat 15 10)) ∧
    normalise_value (.str "7") = .ok (.int 7) :=
  ⟨normalise_value_spec.1 "1.5" (mkRat 15 10) (by decide) (by decide),
   normalise_value_spec.2.1 "7" 7 (by decide) (by decide)⟩

/-- C3 counterexample: the record containing only `"Age"` bound to the
uncoercible string `"x.y"` is missing `"Annual_Income"` (its first missing
FeatureSpec key), yet `prepare_payload` raises the coercion error for the
present key `"Age"`, not an error naming the missing key. -/
theorem prepare_payload_missing_key_counterexample :
    FEATURE_ORDER.find?
        (fun k => (dictLookup [("Age", PyVal.str "x.y")] k).isNone) =
      some "Annual_Income" ∧
    prepare_payload [("Age", PyVal.str "x.y")] =
      .error (.valueError "could not convert string to float: 'x.y'") ∧
    prepare_payload [("Age", PyVal.str "x.y")] ≠
      .error (.valueError "Feature 'Annual_Income' missing from payload.") :=
  ⟨by decide, by decide, by decide⟩

/-- C3 (amended): for every input record missing at least one FeatureSpec
key, provided the values at the keys preceding the first missing key all
coerce successfully, `prepare_payload` fails with the `ValueError` naming
that first missing key in `FEATURE_ORDER` order and never substitutes a
default; and a handler request with an empty data mapping returns status
400 with body error `Feature 'Age' missing from payload.`. -/
theorem prepare_payload_missing_key (data : Dict) (k : String)
    (hfind :
      FEATURE_ORDER.find? (fun k2 => (dictLookup data k2).isNone) = some k)
    (hpre : ∀ k2 ∈ FEATURE_ORDER.takeWhile
        (fun k3 => (dictLookup data k3).isSome),
      exceptOk (coerceAt data k2) = true) :
    prepare_payload data =
      .error (.valueError ("Feature '" ++ k ++ "' missing from payload.")) ∧
    ∀ env : Env, handler env (.direct (some [])) =
      (.response { statusCode := 400, contentType := "application/json",
                   body := .failure "Feature 'Age' missing from payload." },
       []) :=
  ⟨prepare_aux_missing data FEATURE_ORDER k hfind hpre, fun _ => rfl⟩

theorem prepare_payload_missing_key_witness :
    prepare_payload ([] : Dict) =
      .error (.valueError ("Feature '" ++ "Age" ++ "' missing from payload.")) ∧
    ∀ env : Env, handler env (.direct (some [])) =
      (.response { statusCode := 400, contentType := "application/json",
                   body := .failure "Feature 'Age' missing from payload." },
       []) :=
  prepare_payload_missing_key [] "Age" (by decide) (by decide)

theorem write_append_aux (content header : String) (rows : List String)
    (hsplit : splitlines content = header :: rows)
    (data : Dict) (prediction : PyVal) (timestamp : String)
    (model_version : PyVal) :
    write_real_data_to_s3 (some content) data prediction timestamp
        model_version =
      .ok (String.intercalate "\n" (header ::
        (rows ++ [rowOf (enrich data prediction timestamp model_version)]))) := by
  simp only [write_real_data_to_s3]
  rw [hsplit]

/-- C4: a first write of the day (the fetch raised `NoSuchKey`) writes a log
consisting of a header line equal to the comma-joined field names of the
enriched record in that record's key order, followed by exactly one data
row, the comma-joined stringified values in the same order. -/
theorem write_real_data_first_write (data : Dict) (prediction : PyVal)
    (timestamp : String) (model_version : PyVal) :
    write_real_data_to_s3 none data prediction timestamp model_version =
      .ok (String.intercalate "\n"
        [headerOf (enrich data prediction timestamp model_version),
         rowOf (enrich data prediction timestamp model_version)]) := rfl

/-- C5: appending to a day whose fetched log splits into a header line and N
data rows writes back that same header and those same N rows byte-identical
and unchanged, with the single new row appended last — N+1 data rows in
total, the first N being the fetched ones. -/
theorem write_real_data_append (content header : String) (rows : List String)
    (hsplit : splitlines content = header :: rows)
    (data : Dict) (prediction : PyVal) (timestamp : String)
    (model_version : PyVal) :
    write_real_data_to_s3 (some content) data prediction timestamp
        model_version =
      .ok (String.intercalate "\n" (header ::
        (rows ++ [rowOf (enrich data prediction timestamp model_version)]))) ∧
    (rows ++ [rowOf (enrich data prediction timestamp model_version)]).length
      = rows.length + 1 ∧
    (rows ++ [rowOf (enrich data prediction timestamp model_version)]).take
      rows.length = rows := by
  refine ⟨?_, by simp, List.take_left rows _⟩
  exact write_append_aux content header rows hsplit data prediction
    timestamp model_version

theorem write_real_data_append_witness :
    write_real_data_to_s3 (some "a,b\n1,2") [("Age", PyVal.int 3)]
        (.int 5) "t" (.str "v") =
      .ok (String.intercalate "\n" ("a,b" ::
        (["1,2"] ++ [rowOf (enrich [("Age", PyVal.int 3)] (.int 5) "t"
          (.str "v"))]))) ∧
    (["1,2"] ++ [rowOf (enrich [("Age", PyVal.int 3)] (.int 5) "t"
        (.str "v"))]).length = ["1,2"].length + 1 ∧
    (["1,2"] ++ [rowOf (enrich [("Age", PyVal.int 3)] (.int 5) "t"
        (.str "v"))]).take ["1,2"].length = ["1,2"] :=
  write_real_data_append "a,b\n1,2" "a,b" ["1,2"] (by decide)
    [("Age", PyVal.int 3)] (.int 5) "t" (.str "v")

/-! ## General lemmas about the handler's paths -/

theorem handler_metrics_error_aux (env : Env) (event : Event) (data : Dict)
    (features : List PyVal) (v : PyVal) (p : ℚ) (e : PyErr)
    (hev : extract_payload env event = .ok data)
    (hf : prepare_payload data = .ok features)
    (hv : (env.predict features).head? = some v)
    (hp : pyFloatCoerce v = .ok p)
    (hm : env.metrics_result = .error e) :
    handler env event = (.uncaught e, [.metrics data p]) := by
  unfold handler
  rw [hev]
  simp only [hf, hv, hp, hm]

theorem handler_write_error_aux (env : Env) (event : Event) (data : Dict)
    (features : List PyVal) (v : PyVal) (p : ℚ) (u : Unit) (e : PyErr)
    (hev : extract_payload env event = .ok data)
    (hf : prepare_payload data = .ok features)
    (hv : (env.predict features).head? = some v)
    (hp : pyFloatCoerce v = .ok p)
    (hm : env.metrics_result = .ok u)
    (hw : write_real_data_to_s3 env.stored data (.float p) env.timestamp
        (.str env.version) = .error e) :
    handler env event = (.uncaught e, [.metrics data p, .s3_write data p]) := by
  unfold handler
  rw [hev]
  simp only [hf, hv, hp, hm, hw]

theorem handler_success_aux (env : Env) (event : Event) (data : Dict)
    (features : List PyVal) (v : PyVal) (p : ℚ) (u : Unit) (c : String)
    (hev : extract_payload env event = .ok data)
    (hf : prepare_payload data = .ok features)
    (hv : (env.predict features).head? = some v)
    (hp : pyFloatCoerce v = .ok p)
    (hm : env.metrics_result = .ok u)
    (hw : write_real_data_to_s3 env.stored data (.float p) env.timestamp
        (.str env.version) = .ok c) :
    handler env event =
      (.response { statusCode := 200, contentType := "application/json",
                   body := .success p env.version },
       [.metrics data p, .s3_write data p]) := by
  unfold handler
  rw [hev]
  simp only [hf, hv, hp, hm, hw]

/-- C6: for every request whose extracted payload normalizes, whose
inference succeeds (the model output's first element coerces to a float
`p`), and whose side effects succeed, the handler returns status 200 with
`Content-Type: application/json` and a body carrying the float prediction
`p` and a version string equal to the loaded metadata's version. -/
theorem handler_success (env : Env) (event : Event) (data : Dict)
    (features : List PyVal) (v : PyVal) (p : ℚ) (u : Unit)
    (hev : extract_payload env event = .ok data)
    (hf : prepare_payload data = .ok features)
    (hv : (env.predict features).head? = some v)
    (hp : pyFloatCoerce v = .ok p)
    (hm : env.metrics_result = .ok u)
    (hs : exceptOk (write_real_data_to_s3 env.stored data (.float p)
        env.timestamp (.str env.version)) = true) :
    handler env event =
      (.response { statusCode := 200, contentType := "application/json",
                   body := .success p env.version },
       [.metrics data p, .s3_write data p]) := by
  cases hw : write_real_data_to_s3 env.stored data (.float p) env.timestamp
      (.str env.version) with
  | error e => rw [hw] at hs; exact absurd hs (by simp [exceptOk])
  | ok c =>
      exact handler_success_aux env event data features v p u c
        hev hf hv hp hm hw

theorem handler_success_witness :
    handler envOk (.direct (some smallRecord)) =
      (.response { statusCode := 200, contentType := "application/json",
                   body := .success (mkRat 300 1) envOk.version },
       [.metrics smallRecord (mkRat 300 1),
        .s3_write smallRecord (mkRat 300 1)]) :=
  handler_success envOk (.direct (some smallRecord)) smallRecord
    (List.replicate 18 (PyVal.int 1)) (.float (mkRat 300 1)) (mkRat 300 1) ()
    (by decide) (by decide) (by decide) (by decide) (by decide) (by decide)

/-- C7: on every request where inference succeeds, the handler calls
`publish_metrics` first and `write_real_data_to_s3` only after it, both with
the original pre-normalization payload and the prediction; an exception from
either side effect is not caught and escapes the handler, aborting the
success response. -/
theorem handler_side_effects (env : Env) (event : Event) (data : Dict)
    (features : List PyVal) (v : PyVal) (p : ℚ)
    (hev : extract_payload env event = .ok data)
    (hf : prepare_payload data = .ok features)
    (hv : (env.predict features).head? = some v)
    (hp : pyFloatCoerce v = .ok p) :
    ((handler env event).2 = [.metrics data p] ∨
     (handler env event).2 = [.metrics data p, .s3_write data p]) ∧
    (∀ e : PyErr, env.metrics_result = .error e →
      handler env event = (.uncaught e, [.metrics data p])) ∧
    (∀ (u : Unit) (e : PyErr), env.metrics_result = .ok u →
      write_real_data_to_s3 env.stored data (.float p) env.timestamp
          (.str env.version) = .error e →
      handler env event =
        (.uncaught e, [.metrics data p, .s3_write data p])) := by
  refine ⟨?_, ?_, ?_⟩
  · cases hm : env.metrics_result with
    | error e =>
        left
        rw [handler_metrics_error_aux env event data features v p e
          hev hf hv hp hm]
    | ok u =>
        right
        cases hw : write_real_data_to_s3 env.stored data (.float p)
            env.timestamp (.str env.version) with
        | error e =>
            rw [handler_write_error_aux env event data features v p u e
              hev hf hv hp hm hw]
        | ok c =>
            rw [handler_success_aux env event data features v p u c
              hev hf hv hp hm hw]
  · intro e hm
    exact handler_metrics_error_aux env event data features v p e
      hev hf hv hp hm
  · intro u e hm hw
    exact handler_write_error_aux env event data features v p u e
      hev hf hv hp hm hw

theorem handler_side_effects_witness :
    ((handler envMetricsDown (.direct (some smallRecord))).2 =
        [.metrics smallRecord (mkRat 300 1)] ∨
     (handler envMetricsDown (.direct (some smallRecord))).2 =
        [.metrics smallRecord (mkRat 300 1),
         .s3_write smallRecord (mkRat 300 1)]) ∧
    (∀ e : PyErr, envMetricsDown.metrics_result = .error e →
      handler envMetricsDown (.direct (some smallRecord)) =
        (.uncaught e, [.metrics smallRecord (mkRat 300 1)])) ∧
    (∀ (u : Unit) (e : PyErr), envMetricsDown.metrics_result = .ok u →
      write_real_data_to_s3 envMetricsDown.stored smallRecord
          (.float (mkRat 300 1)) envMetricsDown.timestamp
          (.str envMetricsDown.version) = .error e →
      handler envMetricsDown (.direct (some smallRecord)) =
        (.uncaught e, [.metrics smallRecord (mkRat 300 1),
                       .s3_write smallRecord (mkRat 300 1)])) :=
  handler_side_effects envMetricsDown (.direct (some smallRecord)) smallRecord
    (List.replicate 18 (PyVal.int 1)) (.float (mkRat 300 1)) (mkRat 300 1)
    (by decide) (by decide) (by decide) (by decide)

/-- C8 counterexample: on a request that normalizes and infers successfully
while the day's stored log exists but is empty, the handler does not return
any response — in particular no 400-class one: the `ValueError` escapes it
uncaught. -/
theorem write_empty_log_counterexample :
    handler env6 (.direct (some smallRecord)) =
      (.uncaught (.valueError "Empty file retrieved from S3"),
       [.metrics smallRecord (mkRat 300 1),
        .s3_write smallRecord (mkRat 300 1)]) ∧
    (handler env6 (.direct (some smallRecord))).1.isResponse = false :=
  ⟨by decide, by decide⟩

/-- C8 (amended): when the append fetches an existing log for the day whose
content is empty (zero lines), it fails with
`ValueError("Empty file retrieved from S3")`, and on a request that reaches
the append that failure escapes the handler as an uncaught exception — the
handler returns no response at all, rather than a handled 400 one. -/
theorem write_empty_log_uncaught (env : Env) (event : Event) (data : Dict)
    (features : List PyVal) (v : PyVal) (p : ℚ) (c : String) (u : Unit)
    (hstored : env.stored = some c) (hempty : splitlines c = [])
    (hev : extract_payload env event = .ok data)
    (hf : prepare_payload data = .ok features)
    (hv : (env.predict features).head? = some v)
    (hp : pyFloatCoerce v = .ok p)
    (hm : env.metrics_result = .ok u) :
    write_real_data_to_s3 env.stored data (.float p) env.timestamp
        (.str env.version) =
      .error (.valueError "Empty file retrieved from S3") ∧
    handler env event =
      (.uncaught (.valueError "Empty file retrieved from S3"),
       [.metrics data p, .s3_write data p]) ∧
    (handler env event).1.isResponse = false := by
  have hw : write_real_data_to_s3 env.stored data (.float p) env.timestamp
      (.str env.version) =
      .error (.valueError "Empty file retrieved from S3") := by
    rw [hstored]
    simp only [write_real_data_to_s3]
    rw [hempty]
  have h1 := handler_write_error_aux env event data features v p u
    (.valueError "Empty file retrieved from S3") hev hf hv hp hm hw
  exact ⟨hw, h1, by rw [h1]; rfl⟩

theorem write_empty_log_uncaught_witness :
    write_real_data_to_s3 env6.stored smallRecord (.float (mkRat 300 1))
        env6.timestamp (.str env6.version) =
      .error (.valueError "Empty file retrieved from S3") ∧
    handler env6 (.direct (some smallRecord)) =
      (.uncaught (.valueError "Empty file retrieved from S3"),
       [.metrics smallRecord (mkRat 300 1),
        .s3_write smallRecord (mkRat 300 1)]) ∧
    (handler env6 (.direct (some smallRecord))).1.isResponse = false :=
  write_empty_log_uncaught env6 (.direct (some smallRecord)) smallRecord
    (List.replicate 18 (PyVal.int 1)) (.float (mkRat 300 1)) (mkRat 300 1)
    "" () (by decide) (by decide) (by decide) (by decide) (by decide)
    (by decide) (by decide)

/-- C9: two concurrent appends for the same day that both fetch the same
prior log state and both complete their write leave a final log holding only
the later call's new row: the earlier call's row, absent from the prior
rows and different from the later one's, is lost when the later write
overwrites the log. -/
theorem lost_update_race (content header : String) (rows : List String)
    (hsplit : splitlines content = header :: rows)
    (d1 : Dict) (p1 : PyVal) (t1 : String) (v1 : PyVal)
    (d2 : Dict) (p2 : PyVal) (t2 : String) (v2 : PyVal)
    (hne : rowOf (enrich d1 p1 t1 v1) ≠ rowOf (enrich d2 p2 t2 v2))
    (hold : rowOf (enrich d1 p1 t1 v1) ∉ rows) :
    (lost_update (some content) d1 p1 t1 v1 d2 p2 t2 v2).1 =
      .ok (String.intercalate "\n"
        (header :: (rows ++ [rowOf (enrich d1 p1 t1 v1)]))) ∧
    (lost_update (some content) d1 p1 t1 v1 d2 p2 t2 v2).2 =
      .ok (String.intercalate "\n"
        (header :: (rows ++ [rowOf (enrich d2 p2 t2 v2)]))) ∧
    rowOf (enrich d2 p2 t2 v2) ∈ rows ++ [rowOf (enrich d2 p2 t2 v2)] ∧
    rowOf (enrich d1 p1 t1 v1) ∉ rows ++ [rowOf (enrich d2 p2 t2 v2)] := by
  refine ⟨write_append_aux content header rows hsplit d1 p1 t1 v1,
    write_append_aux content header rows hsplit d2 p2 t2 v2, by simp, ?_⟩
  intro hmem
  rcases List.mem_append.mp hmem with h | h
  · exact hold h
  · exact hne (List.mem_singleton.mp h)

theorem lost_update_race_witness :
    (lost_update (some "a,b\n0,0") [("A", PyVal.int 1)] (.int 1) "t1"
        (.str "m") [("A", PyVal.int 2)] (.int 2) "t2" (.str "m")).1 =
      .ok (String.intercalate "\n"
        ("a,b" :: (["0,0"] ++
          [rowOf (enrich [("A", PyVal.int 1)] (.int 1) "t1" (.str "m"))]))) ∧
    (lost_update (some "a,b\n0,0") [("A", PyVal.int 1)] (.int 1) "t1"
        (.str "m") [("A", PyVal.int 2)] (.int 2) "t2" (.str "m")).2 =
      .ok (String.intercalate "\n"
        ("a,b" :: (["0,0"] ++
          [rowOf (enrich [("A", PyVal.int 2)] (.int 2) "t2" (.str "m"))]))) ∧
    rowOf (enrich [("A", PyVal.int 2)] (.int 2) "t2" (.str "m")) ∈
      ["0,0"] ++ [rowOf (enrich [("A", PyVal.int 2)] (.int 2) "t2" (.str "m"))] ∧
    rowOf (enrich [("A", PyVal.int 1)] (.int 1) "t1" (.str "m")) ∉
      ["0,0"] ++ [rowOf (enrich [("A", PyVal.int 2)] (.int 2) "t2" (.str "m"))] :=
  lost_update_race "a,b\n0,0" "a,b" ["0,0"] (by decide)
    [("A", PyVal.int 1)] (.int 1) "t1" (.str "m")
    [("A", PyVal.int 2)] (.int 2) "t2" (.str "m") (by decide) (by decide)

/-- C10: a gateway event whose body fails JSON parsing makes the handler
re-raise the parse error unhandled — no 400 response (and no response at
all) is produced, and no side effect runs — because extraction happens
before the error-catching boundary that converts normalization and
inference failures into 400 responses. -/
theorem handler_invalid_body (env : Env) (body : String) (e : PyErr)
    (h : env.json_loads body = .error e) :
    handler env (.gateway body) = (.uncaught e, []) ∧
    (handler env (.gateway body)).1.isResponse = false := by
  have hx : extract_payload env (.gateway body) = .error e := by
    simp only [extract_payload]
    rw [h]
  have h1 : handler env (.gateway body) = (.uncaught e, []) := by
    unfold handler
    rw [hx]
  exact ⟨h1, by rw [h1]; rfl⟩

theorem handler_invalid_body_witness :
    handler envBadJson (.gateway "not json") =
      (.uncaught (.valueError "Expecting value: line 1 column 1 (char 0)"),
       []) ∧
    (handler envBadJson (.gateway "not json")).1.isResponse = false :=
  handler_invalid_body envBadJson "not json"
    (.valueError "Expecting value: line 1 column 1 (char 0)") rfl

end CreditScoreApp
